import Mathlib

/-!
# Verification of the kubetest2 GKE multi-cluster creation orchestrator

Shallow embedding of `kubetest2-gke/deployer/up.go`: the retry loop
`createClusters`, the error classifier `isRetryableError`, the fan-out over
`errgroup.Group`, the singleton-guarded `testSetup`, and the pure helper
`generateClusterNames`.

Modelling conventions:
* Go errors are `Option String` (`none` = nil error, `some msg` = an error
  whose `Error()` text is `msg`).
* A compiled regular expression is modelled by its matching function
  `String → Bool` (the result of `regexp.MatchString`, a substring search).
* The external world (subnet creation, network setup, the `gcloud` tool runs
  of one attempt) is supplied as explicit behaviour functions indexed by the
  attempt number, so the loop itself stays a pure function.
* Go byte strings are modelled as Lean `String`s; Go's byte slicing
  `uid[:33]` is modelled as truncation of the character list (they agree on
  ASCII identifiers, the intended inputs).
-/

namespace Kubetest2GKE

/-- Model of `isRetryableError` (up.go lines 145–152): walk the compiled
retryable-error patterns and return `true` as soon as one matches the error
message; an exhausted (in particular, empty) pattern list yields `false`. -/
def isRetryableError (patterns : List (String → Bool)) (errMsg : String) : Bool :=
  match patterns with
  | [] => false
  | regx :: rest => if regx errMsg then true else isRetryableError rest errMsg

/-- Model of `errgroup.Group.Wait` as used in `createClusters` (up.go line
126): `completed` lists every dispatched goroutine's result (`none` =
success) in the order in which the group observes their completion; `Wait`
blocks until all of them have finished and returns the first error observed,
or `none` when every goroutine succeeded.  It is a function of the whole
list precisely because `Wait` does not return while any sibling is still
running. -/
def egWait (completed : List (Option String)) : Option String :=
  match completed with
  | [] => none
  | none :: rest => egWait rest
  | some e :: _ => some e

/-- Model of the fan-out of one attempt (up.go lines 108–122): one goroutine
per (project, cluster) pair, dispatched in the nested-loop order of the
source.  `createCluster` (up.go line 154) takes only the project, the
cluster, the subnetwork args and the location — no context or cancellation
token exists anywhere in the attempt (`eg := new(errgroup.Group)` carries no
`Context`) — so each operation's result is exactly the result of its own
tool invocation, here `toolResult p c`. -/
def attemptFanOut (toolResult : String → String → Option String)
    (projects : List String) (layout : String → List String) :
    List (Option String) :=
  projects.flatMap fun p => (layout p).map fun c => toolResult p c

/-- Instrumented outcome of one `createClusters` run: the 0-based indices of
the loop iterations (attempts) that were entered, the attempt indices `r`
for which the rollback goroutine `go func() { d.deleteClusters(r);
d.deleteSubnets(r) }()` was spawned, and the function's return value
(`none` = nil). -/
structure CreateTrace where
  attempts : List Nat
  rollbacks : List Nat
  result : Option String
deriving DecidableEq, Repr

/-- Model of the body of the retry loop of `createClusters` (up.go lines
98–139), starting at attempt index `i` with `fuel` loop iterations left
(`fuel` = `totalTryCount - i` at entry).  Per iteration: `createSubnets`
then `setupNetwork` (their errors are returned unwrapped, lines 101–106),
then the fan-out whose first surfaced error is `egWait (opResults i)`
(lines 108–126).  No error: return nil (line 137).  Retryable error: spawn
the rollback for this attempt index and continue (lines 127–131).
Non-retryable error: return it wrapped as
`"error creating clusters: " ++ msg` (line 133).  When the fuel runs out the
loop exits and the function returns nil (line 141). -/
def createClustersFrom (retryable : String → Bool)
    (subnetsErr networkErr : Nat → Option String)
    (opResults : Nat → List (Option String)) :
    Nat → Nat → CreateTrace
  | 0, _ => ⟨[], [], none⟩
  | fuel + 1, i =>
    match subnetsErr i with
    | some e => ⟨[i], [], some e⟩
    | none =>
      match networkErr i with
      | some e => ⟨[i], [], some e⟩
      | none =>
        match egWait (opResults i) with
        | none => ⟨[i], [], none⟩
        | some msg =>
          if retryable msg then
            let t := createClustersFrom retryable subnetsErr networkErr opResults fuel (i + 1)
            ⟨i :: t.attempts, i :: t.rollbacks, t.result⟩
          else
            ⟨[i], [], some ("error creating clusters: " ++ msg)⟩

/-- `totalTryCount := math.Max(len(d.regions), len(d.zones))`
(up.go line 97). -/
def totalTryCount (regions zones : List String) : Nat :=
  max regions.length zones.length

/-- Model of `createClusters` (up.go lines 94–142): run the retry loop from
attempt 0 with `totalTryCount` iterations available. -/
def createClusters (retryable : String → Bool)
    (subnetsErr networkErr : Nat → Option String)
    (opResults : Nat → List (Option String))
    (regions zones : List String) : CreateTrace :=
  createClustersFrom retryable subnetsErr networkErr opResults
    (totalTryCount regions zones) 0

/-- An attempt index `i` "failed retryably": subnet and network setup
succeeded, the fan-out surfaced an error, and that error matches the
retryable classifier.  These are exactly the iterations in which
`createClusters` spawns the rollback goroutine. -/
def retryablyFailed (retryable : String → Bool)
    (subnetsErr networkErr : Nat → Option String)
    (opResults : Nat → List (Option String)) (i : Nat) : Bool :=
  (subnetsErr i).isNone && (networkErr i).isNone &&
    (match egWait (opResults i) with
     | some msg => retryable msg
     | none => false)

/-- Model of `generateClusterNames` (up.go lines 335–359): for `i` from 1 to
`numClusters` build `"kt2-" ++ id ++ strconv.Itoa i`, where `id` is the uid
truncated to its first 33 characters followed by `"-"` when the uid is
non-empty, and empty otherwise. -/
def generateClusterNames (numClusters : Nat) (uid : String) : List String :=
  (List.range numClusters).map fun k =>
    let i := k + 1
    let clusterNameSuffix := Nat.repr i
    let id : String :=
      if uid ≠ "" then
        (if uid.length > 33 then String.mk (uid.data.take 33) else uid) ++ "-"
      else ""
    "kt2-" ++ id ++ clusterNameSuffix

/-- The part of a generated cluster name that does not depend on the index:
the fixed `"kt2-"` start followed by the (possibly truncated) uid and a
dash. -/
def clusterNameStem (uid : String) : String :=
  "kt2-" ++
    (if uid ≠ "" then
      (if uid.length > 33 then String.mk (uid.data.take 33) else uid) ++ "-"
    else "")

/-- The four side-effecting steps of `testSetup` (up.go lines 249–270), in
source order. -/
inductive SetupStep where
  | prepareGcp
  | kubeconfig
  | instanceGroups
  | firewallRules
deriving DecidableEq, Repr

/-- Outcome of one `testSetup` call: its returned error, the value of the
`testPrepared` flag afterwards, and the steps that were actually run, in
order. -/
structure SetupResult where
  error : Option String
  testPrepared : Bool
  stepsRun : List SetupStep
deriving DecidableEq, Repr

/-- Model of `testSetup` (up.go lines 249–270): if `testPrepared` is already
set, return nil immediately without running any step; otherwise run
`prepareGcpIfNeeded`, `Kubeconfig`, `getInstanceGroups`,
`ensureFirewallRules` in order, stopping at the first error; on full success
set `testPrepared` and return nil. -/
def testSetup (testPrepared : Bool) (stepErr : SetupStep → Option String) :
    SetupResult :=
  if testPrepared then ⟨none, testPrepared, []⟩
  else
    match stepErr .prepareGcp with
    | some e => ⟨some e, false, [.prepareGcp]⟩
    | none =>
      match stepErr .kubeconfig with
      | some e => ⟨some e, false, [.prepareGcp, .kubeconfig]⟩
      | none =>
        match stepErr .instanceGroups with
        | some e => ⟨some e, false, [.prepareGcp, .kubeconfig, .instanceGroups]⟩
        | none =>
          match stepErr .firewallRules with
          | some e =>
            ⟨some e, false, [.prepareGcp, .kubeconfig, .instanceGroups, .firewallRules]⟩
          | none =>
            ⟨none, true, [.prepareGcp, .kubeconfig, .instanceGroups, .firewallRules]⟩

/-! ## Theorems -/

/-- C2: `isRetryableError` returns `true` iff some pattern of the configured
set matches the error message, and with an empty pattern set it returns
`false` for every message, so every failure is then treated as fatal. -/
theorem isRetryableError_iff_matches (patterns : List (String → Bool)) (msg : String) :
    (isRetryableError patterns msg = true ↔ ∃ p ∈ patterns, p msg = true) ∧
    isRetryableError [] msg = false := by
  refine ⟨?_, rfl⟩
  induction patterns with
  | nil => simp [isRetryableError]
  | cons q rest ih =>
    by_cases hq : q msg
    · simp [isRetryableError, hq]
    · simp only [isRetryableError, hq, Bool.false_eq_true, if_false, ih,
        List.exists_mem_cons_iff]
      constructor
      · exact fun h => Or.inr h
      · rintro (h | h)
        · exact absurd h (by simp [hq])
        · exact h

/-- C6: `egWait` (the fan-out's `Wait`) returns no error iff every dispatched
operation succeeded, and any error it returns is one actually produced by a
dispatched operation; it is a function of the complete result list because
`Wait` returns only after all operations reached a terminal state. -/
theorem egWait_first_error (completed : List (Option String)) :
    (egWait completed = none ↔ ∀ r ∈ completed, r = none) ∧
    (∀ msg, egWait completed = some msg → some msg ∈ completed) := by
  induction completed with
  | nil => simp [egWait]
  | cons r rest ih =>
    cases r with
    | none =>
      refine ⟨?_, ?_⟩
      · rw [show egWait (none :: rest) = egWait rest from rfl, ih.1]
        simp
      · intro msg h
        exact List.mem_cons_of_mem _ (ih.2 msg h)
    | some e =>
      refine ⟨?_, ?_⟩
      · constructor
        · intro h; exact absurd h (by simp [egWait])
        · intro h
          exact absurd (h (some e) (List.mem_cons_self _ _)) (by simp)
      · intro msg h
        have he : e = msg := Option.some.inj h
        subst he
        exact List.mem_cons_self _ _

/-- Witness for C6 at a concrete completion order: the second operation
fails first among the surfaced errors, and the returned error is one of the
dispatched operations' results. -/
theorem egWait_first_error_witness :
    egWait [none, some "e", some "f"] = some "e" ∧
      some "e" ∈ [none, some "e", some "f"] :=
  ⟨rfl, (egWait_first_error [none, some "e", some "f"]).2 "e" rfl⟩

theorem createClustersFrom_attempts_length_le (retryable : String → Bool)
    (subnetsErr networkErr : Nat → Option String)
    (opResults : Nat → List (Option String)) :
    ∀ fuel i,
      (createClustersFrom retryable subnetsErr networkErr opResults fuel i).attempts.length ≤
        fuel := by
  intro fuel
  induction fuel with
  | zero => intro i; simp [createClustersFrom]
  | succ fuel ih =>
    intro i
    simp only [createClustersFrom]
    cases hs : subnetsErr i with
    | some e => simp
    | none =>
      cases hn : networkErr i with
      | some e => simp
      | none =>
        cases hw : egWait (opResults i) with
        | none => simp
        | some msg =>
          by_cases hr : retryable msg
          · simp only [hr, if_true, List.length_cons]
            exact Nat.succ_le_succ (ih (i + 1))
          · simp [hr]

/-- C3: for every region/zone configuration and every behaviour of the
external steps — in particular any sequence of retryable failures —
`createClusters` enters at most `max (len regions) (len zones)` loop
iterations; the retry loop is a total function of its fuel, hence it
terminates and never retries unboundedly. -/
theorem createClusters_attempts_bounded (retryable : String → Bool)
    (subnetsErr networkErr : Nat → Option String)
    (opResults : Nat → List (Option String)) (regions zones : List String) :
    (createClusters retryable subnetsErr networkErr opResults regions zones).attempts.length ≤
      max regions.length zones.length :=
  createClustersFrom_attempts_length_le retryable subnetsErr networkErr opResults
    (totalTryCount regions zones) 0

theorem createClustersFrom_attempts_range (retryable : String → Bool)
    (subnetsErr networkErr : Nat → Option String)
    (opResults : Nat → List (Option String)) :
    ∀ fuel i, ∃ k, k ≤ fuel ∧
      (createClustersFrom retryable subnetsErr networkErr opResults fuel i).attempts =
        List.range' i k := by
  intro fuel
  induction fuel with
  | zero => intro i; exact ⟨0, Nat.le_refl 0, rfl⟩
  | succ fuel ih =>
    intro i
    simp only [createClustersFrom]
    cases hs : subnetsErr i with
    | some e => exact ⟨1, by omega, rfl⟩
    | none =>
      cases hn : networkErr i with
      | some e => exact ⟨1, by omega, rfl⟩
      | none =>
        cases hw : egWait (opResults i) with
        | none => exact ⟨1, by omega, rfl⟩
        | some msg =>
          by_cases hr : retryable msg
          · simp only [hr, if_true]
            obtain ⟨k, hk, h⟩ := ih (i + 1)
            exact ⟨k + 1, by omega, by rw [List.range'_succ, ← h]⟩
          · exact ⟨1, by omega, by simp [hr]⟩

theorem createClustersFrom_rollbacks_eq_filter (retryable : String → Bool)
    (subnetsErr networkErr : Nat → Option String)
    (opResults : Nat → List (Option String)) :
    ∀ fuel i,
      (createClustersFrom retryable subnetsErr networkErr opResults fuel i).rollbacks =
        (createClustersFrom retryable subnetsErr networkErr opResults fuel i).attempts.filter
          (retryablyFailed retryable subnetsErr networkErr opResults) := by
  intro fuel
  induction fuel with
  | zero => intro i; rfl
  | succ fuel ih =>
    intro i
    simp only [createClustersFrom]
    cases hs : subnetsErr i with
    | some e => simp [retryablyFailed, hs]
    | none =>
      cases hn : networkErr i with
      | some e => simp [retryablyFailed, hs, hn]
      | none =>
        cases hw : egWait (opResults i) with
        | none => simp [retryablyFailed, hs, hn, hw]
        | some msg =>
          by_cases hr : retryable msg
          · simp only [hr, if_true]
            have hpred : retryablyFailed retryable subnetsErr networkErr opResults i = true := by
              simp [retryablyFailed, hs, hn, hw, hr]
            simp [List.filter_cons, hpred, ih (i + 1)]
          · have hpred : retryablyFailed retryable subnetsErr networkErr opResults i = false := by
              simp [retryablyFailed, hs, hn, hw, hr]
            simp [hr, List.filter_cons, hpred]

/-- C5: the rollback goroutine is spawned exactly for the retryably-failed
attempts, once each, and with that attempt's own index: the rollback list
equals the attempt list filtered to the retryably-failed indices, and the
attempt list has no duplicates, so each retryably-failed attempt `i`
triggers exactly one rollback and that rollback receives the index `i`
(hence `deleteClusters i` / `deleteSubnets i` touch only the resources
recorded for attempt `i`). -/
theorem createClusters_rollback_exactly_retryable (retryable : String → Bool)
    (subnetsErr networkErr : Nat → Option String)
    (opResults : Nat → List (Option String)) (regions zones : List String) :
    (createClusters retryable subnetsErr networkErr opResults regions zones).rollbacks =
      (createClusters retryable subnetsErr networkErr opResults regions zones).attempts.filter
        (retryablyFailed retryable subnetsErr networkErr opResults) ∧
    (createClusters retryable subnetsErr networkErr opResults regions zones).attempts.Nodup := by
  refine ⟨createClustersFrom_rollbacks_eq_filter retryable subnetsErr networkErr opResults
    (totalTryCount regions zones) 0, ?_⟩
  obtain ⟨k, _, h⟩ := createClustersFrom_attempts_range retryable subnetsErr networkErr
    opResults (totalTryCount regions zones) 0
  rw [createClusters, h]
  exact List.nodup_range' 0 k

theorem getLast?_cons_of_ne_nil {α : Type} (a : α) {l : List α} (h : l ≠ []) :
    (a :: l).getLast? = l.getLast? := by
  cases l with
  | nil => exact absurd rfl h
  | cons b t => exact List.getLast?_cons_cons

theorem createClustersFrom_fatal (retryable : String → Bool)
    (subnetsErr networkErr : Nat → Option String)
    (opResults : Nat → List (Option String)) (i : Nat) (msg : String)
    (hs : subnetsErr i = none) (hn : networkErr i = none)
    (hw : egWait (opResults i) = some msg) (hr : retryable msg = false) :
    ∀ fuel j,
      i ∈ (createClustersFrom retryable subnetsErr networkErr opResults fuel j).attempts →
      (createClustersFrom retryable subnetsErr networkErr opResults fuel j).result =
          some ("error creating clusters: " ++ msg) ∧
        (createClustersFrom retryable subnetsErr networkErr opResults fuel j).attempts.getLast? =
          some i ∧
        i ∉ (createClustersFrom retryable subnetsErr networkErr opResults fuel j).rollbacks := by
  intro fuel
  induction fuel with
  | zero => intro j h; simp [createClustersFrom] at h
  | succ fuel ih =>
    intro j h
    simp only [createClustersFrom] at h ⊢
    cases hsj : subnetsErr j with
    | some e =>
      rw [hsj] at h
      simp only [List.mem_singleton] at h
      subst h
      rw [hs] at hsj
      cases hsj
    | none =>
      rw [hsj] at h
      cases hnj : networkErr j with
      | some e =>
        rw [hnj] at h
        simp only [List.mem_singleton] at h
        subst h
        rw [hn] at hnj
        cases hnj
      | none =>
        rw [hnj] at h
        cases hwj : egWait (opResults j) with
        | none =>
          rw [hwj] at h
          simp only [List.mem_singleton] at h
          subst h
          rw [hw] at hwj
          cases hwj
        | some m =>
          rw [hwj] at h
          by_cases hrj : retryable m = true
          · simp only [hrj, if_true, List.mem_cons] at h
            rcases h with h | h
            · subst h
              rw [hw] at hwj
              cases hwj
              simp [hrj] at hr
            · have hne : i ≠ j := by
                intro hij
                subst hij
                rw [hw] at hwj
                cases hwj
                simp [hrj] at hr
              obtain ⟨h1, h2, h3⟩ := ih (j + 1) h
              simp only [hrj, if_true]
              refine ⟨h1, ?_, ?_⟩
              · rw [getLast?_cons_of_ne_nil j (List.ne_nil_of_mem h), h2]
              · simp only [List.mem_cons, not_or]
                exact ⟨hne, h3⟩
          · simp only [hrj, Bool.false_eq_true, if_false, List.mem_singleton] at h
            subst h
            rw [hw] at hwj
            cases hwj
            simp [hrj]

/-- C4: when an attempt that actually runs sees a first error matching no
configured retryable pattern, `createClusters` returns immediately with the
error wrapped as `"error creating clusters: ..."`: that attempt is the last
one entered (no further attempt is started) and no rollback —
`deleteClusters` / `deleteSubnets` — is spawned for it. -/
theorem createClusters_fatal_halts (retryable : String → Bool)
    (subnetsErr networkErr : Nat → Option String)
    (opResults : Nat → List (Option String)) (regions zones : List String)
    (i : Nat) (msg : String)
    (hs : subnetsErr i = none) (hn : networkErr i = none)
    (hw : egWait (opResults i) = some msg) (hr : retryable msg = false)
    (hmem : i ∈ (createClusters retryable subnetsErr networkErr opResults
      regions zones).attempts) :
    (createClusters retryable subnetsErr networkErr opResults regions zones).result =
        some ("error creating clusters: " ++ msg) ∧
      (createClusters retryable subnetsErr networkErr opResults
        regions zones).attempts.getLast? = some i ∧
      i ∉ (createClusters retryable subnetsErr networkErr opResults regions zones).rollbacks :=
  createClustersFrom_fatal retryable subnetsErr networkErr opResults i msg hs hn hw hr
    (totalTryCount regions zones) 0 hmem

/-- Witness for C4: a single attempt whose only operation fails with
`"boom"`, which matches no configured pattern; the run returns the wrapped
error, the failing attempt is the last one, and no rollback is spawned. -/
theorem createClusters_fatal_halts_witness :
    (createClusters (isRetryableError [fun m => m == "transient"]) (fun _ => none)
        (fun _ => none) (fun _ => [some "boom"]) ["r1"] []).result =
        some ("error creating clusters: " ++ "boom") ∧
      (createClusters (isRetryableError [fun m => m == "transient"]) (fun _ => none)
        (fun _ => none) (fun _ => [some "boom"]) ["r1"] []).attempts.getLast? = some 0 ∧
      0 ∉ (createClusters (isRetryableError [fun m => m == "transient"]) (fun _ => none)
        (fun _ => none) (fun _ => [some "boom"]) ["r1"] []).rollbacks :=
  createClusters_fatal_halts (isRetryableError [fun m => m == "transient"]) (fun _ => none)
    (fun _ => none) (fun _ => [some "boom"]) ["r1"] [] 0 "boom" rfl rfl rfl (by decide)
    (by decide)

/-- C1: the failing input — one region, so a single attempt, whose only
operation fails with `"quota exceeded"`, which matches the configured
retryable pattern.  The loop exhausts its `totalTryCount = 1` attempts,
spawns the rollback for attempt 0, and then `createClusters` returns nil
(success) because the function ends in `return nil` after the loop (up.go
line 141), instead of surfacing the last error as the spec requires for the
retryable-exhausted outcome. -/
theorem createClusters_retryable_exhausted_returns_nil :
    createClusters (isRetryableError [fun m => m == "quota exceeded"])
      (fun _ => none) (fun _ => none) (fun _ => [some "quota exceeded"])
      ["us-central1"] [] = ⟨[0], [0], none⟩ := by
  decide

/-- C9: once a `testSetup` call has succeeded, the `testPrepared` flag is
set, and every call made with the flag set returns nil immediately and runs
none of the setup steps (GCP prepare, kubeconfig, instance groups, firewall
rules) — a second call after a successful one is a no-op. -/
theorem testSetup_singleton (stepErr stepErr2 : SetupStep → Option String)
    (h : (testSetup false stepErr).error = none) :
    (testSetup false stepErr).testPrepared = true ∧
    testSetup true stepErr2 = ⟨none, true, []⟩ := by
  refine ⟨?_, rfl⟩
  simp only [testSetup, Bool.false_eq_true, if_false] at h ⊢
  cases h1 : stepErr .prepareGcp with
  | some e => rw [h1] at h; simp at h
  | none =>
    rw [h1] at h
    cases h2 : stepErr .kubeconfig with
    | some e => rw [h2] at h; simp at h
    | none =>
      rw [h2] at h
      cases h3 : stepErr .instanceGroups with
      | some e => rw [h3] at h; simp at h
      | none =>
        rw [h3] at h
        cases h4 : stepErr .firewallRules with
        | some e => rw [h4] at h; simp at h
        | none => rfl

/-- Witness for C9: all steps succeed on the first call; the flag is set and
the guarded second call is a no-op. -/
theorem testSetup_singleton_witness :
    (testSetup false (fun _ => none)).testPrepared = true ∧
      testSetup true (fun _ => none) = ⟨none, true, []⟩ :=
  testSetup_singleton (fun _ => none) (fun _ => none) rfl

/-- C7 (counterexample to the claim as stated): `createClusters` builds its
errgroup with `eg := new(errgroup.Group)` — not `errgroup.WithContext` —
and `createCluster` receives no context or cancellation token, so no shared
cancellation scope exists in an attempt.  With two operations of which the
first fails, the second still runs to its own completion and records the
same result (`none`, success) as in the world where no sibling fails: it is
never asked to stop. -/
theorem attemptFanOut_no_cancellation :
    attemptFanOut (fun _ c => if c = "c1" then some "creation failed" else none)
        ["p1"] (fun _ => ["c1", "c2"]) = [some "creation failed", none] ∧
      attemptFanOut (fun _ _ => none) ["p1"] (fun _ => ["c1", "c2"]) = [none, none] := by
  decide

/-- C7 (amended): every result recorded by the fan-out of one attempt is
exactly the outcome of that operation's own tool invocation — a sibling's
failure never alters it, because no cancellation scope exists; each
attempt's fan-out is a fresh, independent group. -/
theorem attemptFanOut_result_own_invocation
    (toolResult : String → String → Option String)
    (projects : List String) (layout : String → List String) (r : Option String)
    (hr : r ∈ attemptFanOut toolResult projects layout) :
    ∃ p ∈ projects, ∃ c ∈ layout p, r = toolResult p c := by
  simp only [attemptFanOut, List.mem_flatMap, List.mem_map] at hr
  obtain ⟨p, hp, c, hc, hrc⟩ := hr
  exact ⟨p, hp, c, hc, hrc.symm⟩

/-- Witness for C7's amended theorem: the failing operation's recorded
result is its own invocation's result. -/
theorem attemptFanOut_result_own_invocation_witness :
    ∃ p ∈ ["p1"], ∃ c ∈ ["c1", "c2"],
      (some "creation failed" : Option String) =
        (fun _ c => if c = "c1" then some "creation failed" else none :
          String → String → Option String) p c :=
  attemptFanOut_result_own_invocation
    (fun _ c => if c = "c1" then some "creation failed" else none)
    ["p1"] (fun _ => ["c1", "c2"]) (some "creation failed") (by decide)

/-! ### Decimal rendering: `strconv.Itoa` is `Nat.repr`, which is injective -/

/-- Inverse of `Nat.digitChar` on decimal digits. -/
def decodeDigitChar (c : Char) : Nat :=
  if c = '0' then 0 else
  if c = '1' then 1 else
  if c = '2' then 2 else
  if c = '3' then 3 else
  if c = '4' then 4 else
  if c = '5' then 5 else
  if c = '6' then 6 else
  if c = '7' then 7 else
  if c = '8' then 8 else
  if c = '9' then 9 else 0

/-- Decode a most-significant-first decimal digit string. -/
def decodeDecimal (l : List Char) : Nat :=
  l.foldl (fun a c => 10 * a + decodeDigitChar c) 0

theorem decodeDigitChar_digitChar (d : Nat) (h : d < 10) :
    decodeDigitChar (Nat.digitChar d) = d := by
  interval_cases d <;> rfl

theorem toDigitsCore_append (b : Nat) :
    ∀ (fuel n : Nat) (ds : List Char),
      Nat.toDigitsCore b fuel n ds = Nat.toDigitsCore b fuel n [] ++ ds := by
  intro fuel
  induction fuel with
  | zero => intro n ds; rfl
  | succ fuel ih =>
    intro n ds
    simp only [Nat.toDigitsCore]
    by_cases h : n / b = 0
    · simp [h]
    · simp only [h, if_false]
      rw [ih (n / b) (Nat.digitChar (n % b) :: ds), ih (n / b) [Nat.digitChar (n % b)]]
      simp

theorem toDigitsCore_fuel_irrelevant (b : Nat) (hb : 2 ≤ b) :
    ∀ n f1 f2, n < f1 → n < f2 →
      Nat.toDigitsCore b f1 n [] = Nat.toDigitsCore b f2 n [] := by
  intro n
  induction n using Nat.strong_induction_on with
  | _ n ih =>
    intro f1 f2 h1 h2
    cases f1 with
    | zero => omega
    | succ k1 =>
      cases f2 with
      | zero => omega
      | succ k2 =>
        simp only [Nat.toDigitsCore]
        by_cases h : n / b = 0
        · simp [h]
        · simp only [h, if_false]
          have hn : n ≠ 0 := by
            intro hn0
            exact h (by simp [hn0])
          have hdiv : n / b < n := Nat.div_lt_self (by omega) (by omega)
          rw [toDigitsCore_append b k1, toDigitsCore_append b k2,
            ih (n / b) hdiv k1 k2 (by omega) (by omega)]

theorem decodeDecimal_append_digit (l : List Char) (c : Char) :
    decodeDecimal (l ++ [c]) = 10 * decodeDecimal l + decodeDigitChar c := by
  simp [decodeDecimal, List.foldl_append]

theorem decodeDecimal_toDigits (n : Nat) :
    decodeDecimal (Nat.toDigits 10 n) = n := by
  induction n using Nat.strong_induction_on with
  | _ n ih =>
    rw [Nat.toDigits]
    simp only [Nat.toDigitsCore]
    by_cases h : n / 10 = 0
    · have hn : n < 10 := by omega
      simp only [h, if_true]
      simp only [decodeDecimal, List.foldl_cons, List.foldl_nil]
      rw [decodeDigitChar_digitChar (n % 10) (by omega)]
      omega
    · have hge : 10 ≤ n := by omega
      have hdiv : n / 10 < n := by omega
      simp only [h, if_false]
      rw [toDigitsCore_append 10 n (n / 10),
        toDigitsCore_fuel_irrelevant 10 (by omega) (n / 10) n (n / 10 + 1) hdiv (by omega)]
      rw [show Nat.toDigitsCore 10 (n / 10 + 1) (n / 10) [] = Nat.toDigits 10 (n / 10) from rfl]
      rw [decodeDecimal_append_digit, ih (n / 10) hdiv,
        decodeDigitChar_digitChar (n % 10) (by omega)]
      omega

theorem natRepr_injective : Function.Injective Nat.repr := by
  intro m n h
  have hd : Nat.toDigits 10 m = Nat.toDigits 10 n := congrArg String.data h
  have := congrArg decodeDecimal hd
  rwa [decodeDecimal_toDigits, decodeDecimal_toDigits] at this

theorem string_append_left_cancel {s a b : String} (h : s ++ a = s ++ b) : a = b := by
  have hd : s.data ++ a.data = s.data ++ b.data := by
    have := congrArg String.data h
    simpa [String.data_append] using this
  exact String.ext (List.append_cancel_left hd)

theorem generateClusterNames_eq_map (n : Nat) (uid : String) :
    generateClusterNames n uid =
      (List.range n).map fun k => clusterNameStem uid ++ Nat.repr (k + 1) := rfl

/-- C8: for every `numClusters ≥ 1` and every uid, `generateClusterNames`
returns `numClusters` pairwise-distinct names that all share the stem
`"kt2-"` followed by the uid truncated to 33 characters plus `"-"` when the
uid is non-empty, and differ only in the trailing decimal index, which runs
over `1..numClusters`. -/
theorem generateClusterNames_distinct_common_stem (n : Nat) (uid : String) (_hn : 1 ≤ n) :
    (generateClusterNames n uid).length = n ∧
    (generateClusterNames n uid).Nodup ∧
    ∀ s ∈ generateClusterNames n uid,
      ∃ i, 1 ≤ i ∧ i ≤ n ∧ s = clusterNameStem uid ++ Nat.repr i := by
  refine ⟨by simp [generateClusterNames_eq_map], ?_, ?_⟩
  · rw [generateClusterNames_eq_map]
    have hinj : Function.Injective fun k => clusterNameStem uid ++ Nat.repr (k + 1) := by
      intro a b hab
      have h1 := string_append_left_cancel hab
      have h2 := natRepr_injective h1
      omega
    exact (List.nodup_range n).map hinj
  · intro s hs
    rw [generateClusterNames_eq_map] at hs
    simp only [List.mem_map, List.mem_range] at hs
    obtain ⟨k, hk, rfl⟩ := hs
    exact ⟨k + 1, by omega, by omega, rfl⟩

/-- Witness for C8: `generateClusterNames 3 "run-id-123"` produces exactly
three distinct names sharing the `"kt2-run-id-123-"` stem and differing only
in the trailing index. -/
theorem generateClusterNames_distinct_common_stem_witness :
    generateClusterNames 3 "run-id-123" =
        ["kt2-run-id-123-1", "kt2-run-id-123-2", "kt2-run-id-123-3"] ∧
      (generateClusterNames 3 "run-id-123").Nodup :=
  ⟨by decide, (generateClusterNames_distinct_common_stem 3 "run-id-123" (by decide)).2.1⟩

theorem natRepr_length_le_two (i : Nat) (h : i < 100) : (Nat.repr i).length ≤ 2 :=
  Nat.repr_length i 2 (by omega) (by norm_num; omega)

theorem clusterNameStem_length_le (uid : String) : (clusterNameStem uid).length ≤ 38 := by
  rw [clusterNameStem, String.length_append]
  have h4 : ("kt2-" : String).length = 4 := rfl
  by_cases h : uid ≠ ""
  · rw [if_pos h, String.length_append]
    have hdash : ("-" : String).length = 1 := rfl
    by_cases h33 : uid.length > 33
    · rw [if_pos h33]
      have htr : (String.mk (uid.data.take 33)).length ≤ 33 := by
        rw [String.length_mk, List.length_take]
        omega
      omega
    · rw [if_neg h33]
      omega
  · rw [if_neg h]
    have h0 : ("" : String).length = 0 := rfl
    omega

theorem clusterNameStem_head (uid s : String) :
    (clusterNameStem uid ++ s).data.head? = some 'k' := by
  rw [clusterNameStem, String.data_append, String.data_append]
  have hk : ("kt2-" : String).data = ['k', 't', '2', '-'] := by decide
  rw [hk]
  rfl

/-- C10: for every `numClusters` between 1 and 99 and every uid, each
generated cluster name has length at most 40 and starts with the (alphabetic)
character 'k' of the fixed "kt2-" part, satisfying the cloud tool's
cluster-name constraints. -/
theorem generateClusterNames_length_head (n : Nat) (uid : String)
    (h1 : 1 ≤ n) (h99 : n ≤ 99) :
    ∀ s ∈ generateClusterNames n uid,
      s.length ≤ 40 ∧ s.data.head? = some 'k' ∧ 'k'.isAlpha = true := by
  intro s hs
  rw [generateClusterNames_eq_map] at hs
  simp only [List.mem_map, List.mem_range] at hs
  obtain ⟨k, hk, rfl⟩ := hs
  refine ⟨?_, clusterNameStem_head uid (Nat.repr (k + 1)), by decide⟩
  rw [String.length_append]
  have hstem := clusterNameStem_length_le uid
  have hsuffix : (Nat.repr (k + 1)).length ≤ 2 := natRepr_length_le_two (k + 1) (by omega)
  omega

/-- Witness for C10 at `numClusters = 3`, uid `"run-id-123"`, on the first
generated name. -/
theorem generateClusterNames_length_head_witness :
    ("kt2-run-id-123-1" : String).length ≤ 40 ∧
      ("kt2-run-id-123-1" : String).data.head? = some 'k' ∧
      ('k').isAlpha = true :=
  generateClusterNames_length_head 3 "run-id-123" (by decide) (by decide)
    "kt2-run-id-123-1" (by decide)

end Kubetest2GKE
